import Mathlib

/-!
Shallow embedding of the `tomlbuilder` Go package.

The builder state is a record of the three fields of the Go struct
`TomlBuilder`: the public `IndentSize` (a machine integer, modelled as `Int`;
none of the arithmetic performed on it here can overflow 64 bits), the private
`indentation` prefix string, and the buffer contents.  The Go buffer is a
`bytes.Buffer` shared by pointer between a builder and the child views created
by `AddTable` / `AddArrayOfTables`; in this functional embedding every
operation returns the updated state, and the table operations thread the
buffer through the child and back to the parent explicitly, which is
observationally the same as pointer sharing for the single-threaded,
strictly nested call discipline of the package.

Operations that can panic in Go (the string slice `indentation[:len-IndentSize]`
in `unindent` is out of range when `IndentSize` is negative) are embedded with
result type `Option`: `none` is a panic.  All other operations are total.

`indentation` only ever holds ASCII spaces in any state the package itself
creates, so Go's byte-indexed slicing and `String.take` (character-indexed)
agree on every state reachable from `New`.
-/

structure TomlBuilder where
  IndentSize : Int
  indentation : String
  buf : String
deriving DecidableEq

/-- `New` from the source: `IndentSize` 2, empty indentation, empty buffer. -/
def TomlBuilder.New : TomlBuilder :=
  { IndentSize := 2, indentation := "", buf := "" }

/-- The `String()` method of the source: the accumulated buffer contents.
(Named `render` here because `String` would shadow the Lean string type.) -/
def TomlBuilder.render (w : TomlBuilder) : String := w.buf

/-- The private `write` helper: appends the current indentation followed by the
formatted text to the buffer.  (`fmt.Sprintf` calls in the source only splice
string arguments into literal format strings; each call site below passes the
already-spliced text.) -/
def TomlBuilder.write (w : TomlBuilder) (s : String) : TomlBuilder :=
  { w with buf := w.buf ++ (w.indentation ++ s) }

/-- The private `indent` helper: appends two literal spaces (the source
hardcodes `"  "` here and does not consult `IndentSize`). -/
def TomlBuilder.indent (w : TomlBuilder) : TomlBuilder :=
  { w with indentation := w.indentation ++ "  " }

/-- The private `unindent` helper.  Mirrors the three cases of the source:
empty indentation is left alone; an indentation no longer than `IndentSize`
becomes empty; otherwise the Go code evaluates `indentation[:len-IndentSize]`,
which panics (modelled as `none`) exactly when `IndentSize` is negative, and
otherwise drops the last `IndentSize` characters. -/
def TomlBuilder.unindent (w : TomlBuilder) : Option TomlBuilder :=
  if w.indentation.length = 0 then some w
  else if (w.indentation.length : Int) ≤ w.IndentSize then some { w with indentation := "" }
  else if w.IndentSize < 0 then none
  else some { w with indentation := w.indentation.take (w.indentation.length - w.IndentSize.toNat) }

/-- `AddNewLine` from the source: `w.write("\n")`. -/
def TomlBuilder.AddNewLine (w : TomlBuilder) : TomlBuilder :=
  w.write "\n"

/-- `AddComment` from the source: `w.write("# %v", msg)`. -/
def TomlBuilder.AddComment (w : TomlBuilder) (msg : String) : TomlBuilder :=
  w.write ("# " ++ msg)

/-- `AddString` from the source: `w.write("%v = \"%v\"\n", key, value)`. -/
def TomlBuilder.AddString (w : TomlBuilder) (key value : String) : TomlBuilder :=
  w.write (key ++ " = \"" ++ (value ++ "\"\n"))

/-- `AddInt` from the source: `w.write("%v = %v\n", key, value)`; Go renders an
`int` argument of `%v` as its base-10 decimal digits with a leading minus sign
for negatives, exactly as `toString` on `Int`. -/
def TomlBuilder.AddInt (w : TomlBuilder) (key : String) (value : Int) : TomlBuilder :=
  w.write (key ++ " = " ++ (toString value ++ "\n"))

/-- `AddBool` from the source: `strconv.FormatBool` yields the literal tokens
`true` and `false`. -/
def TomlBuilder.AddBool (w : TomlBuilder) (key : String) (value : Bool) : TomlBuilder :=
  w.write (key ++ " = " ++ ((if value then "true" else "false") ++ "\n"))

/-- Model of the private `formatFloat` helper of the source, restricted to
float64 arguments that are integers of magnitude below 10^5 (the only float
arguments any statement in this development needs).  For such a value the
source's test `val == float64(int64(val))` is true, and `fmt.Sprintf("%v.0",
val)` prints the plain base-10 digits of the integer followed by `.0`, because
Go's `%v` on a float64 switches to scientific notation only when the decimal
exponent of the shortest representation reaches 6.  The repository's own
examples pin this behaviour: 8 renders as `8.0` and 0 as `0.0`.  The general
float64 behaviour of `formatFloat` (non-integral values, large magnitudes) is
outside this embedding. -/
def formatFloat (n : Int) : String :=
  toString n ++ ".0"

/-- `AddFloat` from the source, under the same small-integral-float restriction
as `formatFloat`. -/
def TomlBuilder.AddFloat (w : TomlBuilder) (key : String) (value : Int) : TomlBuilder :=
  w.write (key ++ " = " ++ (formatFloat value ++ "\n"))

/-- The private `addArray` helper: opening line, `indent`, one `write` per
element with a trailing comma, `unindent` (which can panic, hence `Option`),
closing line. -/
def TomlBuilder.addArray (w : TomlBuilder) (key : String) (array : List String) : Option TomlBuilder :=
  let w1 := (w.write (key ++ " = [\n")).indent
  let w2 := array.foldl (fun acc val => acc.write (val ++ ",\n")) w1
  w2.unindent.map (fun w3 => w3.write "]\n")

/-- `AddStringArray` from the source: each element is wrapped in double quotes
and handed to `addArray`. -/
def TomlBuilder.AddStringArray (w : TomlBuilder) (key : String) (array : List String) : Option TomlBuilder :=
  w.addArray key (array.map (fun val => "\"" ++ (val ++ "\"")))

/-- `AddIntArray` from the source: each element is rendered with `%d`
(base-10 decimal). -/
def TomlBuilder.AddIntArray (w : TomlBuilder) (key : String) (array : List Int) : Option TomlBuilder :=
  w.addArray key (array.map (fun val => toString val))

/-- `AddFloatArray` from the source, under the same small-integral-float
restriction as `formatFloat`. -/
def TomlBuilder.AddFloatArray (w : TomlBuilder) (key : String) (array : List Int) : Option TomlBuilder :=
  w.addArray key (array.map formatFloat)

/-- `AddBoolArray` from the source: elements rendered by `strconv.FormatBool`. -/
def TomlBuilder.AddBoolArray (w : TomlBuilder) (key : String) (array : List Bool) : Option TomlBuilder :=
  w.addArray key (array.map (fun val => if val then "true" else "false"))

/-- `AddTable` from the source: writes the `[name]` header line through `write`
(so at the current indentation), then invokes the callback once with a child
builder whose `IndentSize` and `indentation` are copied from the caller and
whose buffer is the shared one; afterwards the caller's state is unchanged
except that its buffer is the buffer the callback left behind (nothing more is
appended).  A callback that panics (returns `none`) propagates. -/
def TomlBuilder.AddTable (w : TomlBuilder) (name : String)
    (write : TomlBuilder → Option TomlBuilder) : Option TomlBuilder :=
  let w1 := w.write ("[" ++ (name ++ "]\n"))
  (write { IndentSize := w1.IndentSize, indentation := w1.indentation, buf := w1.buf }).map
    (fun c => { w1 with buf := c.buf })

/-- `AddArrayOfTables` from the source: identical to `AddTable` except that the
header line is `[[name]]`. -/
def TomlBuilder.AddArrayOfTables (w : TomlBuilder) (name : String)
    (write : TomlBuilder → Option TomlBuilder) : Option TomlBuilder :=
  let w1 := w.write ("[[" ++ (name ++ "]]\n"))
  (write { IndentSize := w1.IndentSize, indentation := w1.indentation, buf := w1.buf }).map
    (fun c => { w1 with buf := c.buf })

/-- Text of the element lines of an array block: one line per element, in
order, each prefixed by the indentation `i` and terminated by a comma and a
newline. -/
def elemLines (i : String) : List String → String
  | [] => ""
  | v :: vs => (i ++ (v ++ ",\n")) ++ elemLines i vs

/-- The builder state after the scenario of the spec: a fresh builder, then
`AddString "title" "x"`, `AddFloat "budget" 50`, and `AddTable "g"` whose
callback does `AddString "c" "y"` then `AddInt "n" 3`. -/
def c1Scenario : Option TomlBuilder :=
  TomlBuilder.AddTable
    (TomlBuilder.AddFloat (TomlBuilder.AddString TomlBuilder.New "title" "x") "budget" 50)
    "g"
    (fun b => some (TomlBuilder.AddInt (TomlBuilder.AddString b "c" "y") "n" 3))

/-- Helper: folding the element-writing loop of `addArray` over any element
list appends exactly the element lines, in input order, and leaves the
indentation and `IndentSize` untouched. -/
theorem foldl_write_elems (sz : Int) (i : String) (vals : List String) (b : String) :
    List.foldl (fun acc val => TomlBuilder.write acc (val ++ ",\n"))
        ⟨sz, i, b⟩ vals
      = ⟨sz, i, b ++ elemLines i vals⟩ := by
  induction vals generalizing b with
  | nil => simp [elemLines]
  | cons v vs ih =>
      rw [List.foldl_cons,
        show TomlBuilder.write ⟨sz, i, b⟩ (v ++ ",\n") = ⟨sz, i, b ++ (i ++ (v ++ ",\n"))⟩
          from rfl,
        ih]
      simp [elemLines, String.append_assoc]

/-- Helper: `unindent` on a two-space indentation with the default
`IndentSize` of 2 restores the empty indentation. -/
theorem unindent_two_at_default (b : String) :
    TomlBuilder.unindent ⟨2, "  ", b⟩ = some ⟨2, "", b⟩ := rfl

/-- Helper: on a builder with the default `IndentSize` 2 and empty
indentation, `addArray` appends the opening line, the element lines in input
order (each two spaces deep), and the closing line, and restores the state's
other fields. -/
theorem addArray_default (b key : String) (vals : List String) :
    TomlBuilder.addArray ⟨2, "", b⟩ key vals
      = some ⟨2, "", b ++ ((key ++ " = [\n") ++ (elemLines "  " vals ++ "]\n"))⟩ := by
  have h1 : (TomlBuilder.write ⟨2, "", b⟩ (key ++ " = [\n")).indent
      = ⟨2, "  ", b ++ (key ++ " = [\n")⟩ := by
    simp [TomlBuilder.write, TomlBuilder.indent]
  show (List.foldl (fun acc val => TomlBuilder.write acc (val ++ ",\n"))
      ((TomlBuilder.write ⟨2, "", b⟩ (key ++ " = [\n")).indent) vals).unindent.map
        (fun w3 => TomlBuilder.write w3 "]\n")
    = some ⟨2, "", b ++ ((key ++ " = [\n") ++ (elemLines "  " vals ++ "]\n"))⟩
  rw [h1, foldl_write_elems, unindent_two_at_default]
  simp [TomlBuilder.write, String.append_assoc]

/-- C1 (counterexample): the scenario AddString "title" "x"; AddFloat "budget"
50; AddTable "g" (AddString "c" "y"; AddInt "n" 3) on a fresh builder does NOT
render to the claimed text with a blank line before the [g] header: the
builder writes no blank line before a table header. -/
theorem c1Scenario_ne_claimed :
    Option.map TomlBuilder.render c1Scenario
      ≠ some "title = \"x\"\nbudget = 50.0\n\n[g]\nc = \"y\"\nn = 3\n" := by
  decide

/-- C1 (amended): the same scenario renders to exactly
title = "x"\nbudget = 50.0\n[g]\nc = "y"\nn = 3\n, i.e. the claimed text
without the blank line before [g], with no other text. -/
theorem c1Scenario_renders :
    Option.map TomlBuilder.render c1Scenario
      = some "title = \"x\"\nbudget = 50.0\n[g]\nc = \"y\"\nn = 3\n" := by
  decide

/-- C2 (code bug): with the caller-set IndentSize 1 a single AddIntArray call
on a fresh builder leaves the indentation at one space instead of restoring
the empty indentation it had before the call, because the source's indent
helper hardcodes two spaces while unindent removes IndentSize characters; the
element line is two spaces deep (not one IndentSize unit) and the closing
bracket line is emitted indented. -/
theorem addIntArray_indentSize_one_leaks :
    TomlBuilder.AddIntArray ⟨1, "", ""⟩ "a" [1]
        = some ⟨1, " ", "a = [\n  1,\n ]\n"⟩
      ∧ (" " : String) ≠ "" := by
  decide

/-- C3 (code bug): with the caller-set IndentSize -1, AddIntArray panics in Go
(the slice indentation[:len-IndentSize] in unindent is out of range), modelled
here as the operation returning none; so not every public operation is total
over its accepted input types. -/
theorem addIntArray_negative_indentSize_panics :
    TomlBuilder.AddIntArray ⟨-1, "", ""⟩ "x" [1] = none := by
  decide

/-- C6: each array emitter, on a default builder (IndentSize 2, empty
indentation) with any prior buffer contents, any key and any input list,
appends exactly the opening line key = [, one element line per input element
in input order (each two spaces deep, formatted by the corresponding scalar
rule, terminated by a comma and a newline), and the closing line ]; an empty
input list yields the opening line immediately followed by the closing line,
key = [\n]\n. -/
theorem arrayEmitters_block_shape (b key : String) (ss : List String)
    (ns ms : List Int) (bs : List Bool) :
    (TomlBuilder.AddStringArray ⟨2, "", b⟩ key ss
        = some ⟨2, "", b ++ ((key ++ " = [\n")
            ++ (elemLines "  " (ss.map (fun v => "\"" ++ (v ++ "\""))) ++ "]\n"))⟩)
    ∧ (TomlBuilder.AddIntArray ⟨2, "", b⟩ key ns
        = some ⟨2, "", b ++ ((key ++ " = [\n")
            ++ (elemLines "  " (ns.map (fun v => toString v)) ++ "]\n"))⟩)
    ∧ (TomlBuilder.AddFloatArray ⟨2, "", b⟩ key ms
        = some ⟨2, "", b ++ ((key ++ " = [\n")
            ++ (elemLines "  " (ms.map formatFloat) ++ "]\n"))⟩)
    ∧ (TomlBuilder.AddBoolArray ⟨2, "", b⟩ key bs
        = some ⟨2, "", b ++ ((key ++ " = [\n")
            ++ (elemLines "  " (bs.map (fun v => if v then "true" else "false")) ++ "]\n"))⟩)
    ∧ (TomlBuilder.AddIntArray ⟨2, "", b⟩ key []
        = some ⟨2, "", b ++ (key ++ " = [\n]\n")⟩) := by
  refine ⟨addArray_default b key _, addArray_default b key _, addArray_default b key _,
    addArray_default b key _, ?_⟩
  have h := addArray_default b key ([] : List String)
  simpa [elemLines, String.append_assoc] using h

/-- C7: AddTable first appends the [name] header line at the current
indentation, then invokes the callback once with a child builder whose
IndentSize and indentation equal the caller's (the body is not indented
deeper than the header) and whose buffer is the shared buffer holding the
header; when the callback finishes in state c, the caller ends with exactly
c's buffer, with no closing delimiter appended.  AddArrayOfTables behaves
identically with a [[name]] header line. -/
theorem addTable_header_child_noclose (w : TomlBuilder) (name : String)
    (f : TomlBuilder → Option TomlBuilder) (c c' : TomlBuilder)
    (ht : f ⟨w.IndentSize, w.indentation,
        w.buf ++ (w.indentation ++ ("[" ++ (name ++ "]\n")))⟩ = some c)
    (ha : f ⟨w.IndentSize, w.indentation,
        w.buf ++ (w.indentation ++ ("[[" ++ (name ++ "]]\n")))⟩ = some c') :
    TomlBuilder.AddTable w name f = some ⟨w.IndentSize, w.indentation, c.buf⟩
      ∧ TomlBuilder.AddArrayOfTables w name f
        = some ⟨w.IndentSize, w.indentation, c'.buf⟩ := by
  constructor
  · show (f ⟨w.IndentSize, w.indentation,
        w.buf ++ (w.indentation ++ ("[" ++ (name ++ "]\n")))⟩).map _ = _
    rw [ht, Option.map_some']
    exact rfl
  · show (f ⟨w.IndentSize, w.indentation,
        w.buf ++ (w.indentation ++ ("[[" ++ (name ++ "]]\n")))⟩).map _ = _
    rw [ha, Option.map_some']
    exact rfl

/-- C7 witness: the theorem instantiated at a fresh builder, table name t and
a callback writing n = 1. -/
theorem addTable_header_child_noclose_witness :
    TomlBuilder.AddTable TomlBuilder.New "t"
        (fun x => some (TomlBuilder.AddInt x "n" 1))
        = some ⟨2, "", "[t]\nn = 1\n"⟩
      ∧ TomlBuilder.AddArrayOfTables TomlBuilder.New "t"
        (fun x => some (TomlBuilder.AddInt x "n" 1))
        = some ⟨2, "", "[[t]]\nn = 1\n"⟩ :=
  addTable_header_child_noclose TomlBuilder.New "t"
    (fun x => some (TomlBuilder.AddInt x "n" 1))
    ⟨2, "", "[t]\nn = 1\n"⟩ ⟨2, "", "[[t]]\nn = 1\n"⟩ (by decide) (by decide)

/-- C8 (counterexample): on a builder whose indentation is two spaces,
AddNewLine does not append a bare newline: the private write helper prepends
the current indentation to every write, including the newline write. -/
theorem addNewLine_indented_counterexample :
    (TomlBuilder.AddNewLine ⟨2, "  ", "x"⟩).buf ≠ "x" ++ "\n" := by
  decide

/-- C8 (amended): for every builder state, AddNewLine appends the current
indentation followed by exactly one newline character (so exactly one bare
newline whenever the indentation is empty, as it is in every fresh builder),
and changes no other field. -/
theorem addNewLine_appends_indentation_newline (w : TomlBuilder) :
    (TomlBuilder.AddNewLine w).buf = w.buf ++ (w.indentation ++ "\n")
      ∧ (TomlBuilder.AddNewLine w).indentation = w.indentation
      ∧ (TomlBuilder.AddNewLine w).IndentSize = w.IndentSize :=
  ⟨rfl, rfl, rfl⟩

/-- C9: unindent on a builder whose indentation is already empty returns the
builder unchanged, for every IndentSize (including negative ones): no
underflow, no panic, no negative-length indentation state. -/
theorem unindent_at_zero_depth (w : TomlBuilder) (h : w.indentation = "") :
    TomlBuilder.unindent w = some w := by
  simp [TomlBuilder.unindent, h]

/-- C9 witness: the theorem applied to a builder with empty indentation and a
negative IndentSize. -/
theorem unindent_at_zero_depth_witness :
    TomlBuilder.unindent ⟨-5, "", "x"⟩ = some ⟨-5, "", "x"⟩ :=
  unindent_at_zero_depth ⟨-5, "", "x"⟩ rfl

/-- C10: whenever AddTable (or AddArrayOfTables) returns normally, the
caller's indentation and IndentSize are exactly what they were before the
call, for every callback: the child receives copies of those fields, so
nothing the callback does to the child can change them. -/
theorem addTable_parent_frame (w : TomlBuilder) (name : String)
    (f : TomlBuilder → Option TomlBuilder) (r r' : TomlBuilder)
    (ht : TomlBuilder.AddTable w name f = some r)
    (ha : TomlBuilder.AddArrayOfTables w name f = some r') :
    r.indentation = w.indentation ∧ r.IndentSize = w.IndentSize
      ∧ r'.indentation = w.indentation ∧ r'.IndentSize = w.IndentSize := by
  simp only [TomlBuilder.AddTable, TomlBuilder.AddArrayOfTables,
    Option.map_eq_some'] at ht ha
  obtain ⟨c, -, hr⟩ := ht
  obtain ⟨c', -, hr'⟩ := ha
  subst hr hr'
  exact ⟨rfl, rfl, rfl, rfl⟩

/-- C10 witness: the theorem applied to a builder with IndentSize 7 and
two-space indentation, and a callback that indents the child; the parent
keeps its indentation and IndentSize. -/
theorem addTable_parent_frame_witness :
    (⟨7, "  ", "  [t]\n"⟩ : TomlBuilder).indentation
        = (⟨7, "  ", ""⟩ : TomlBuilder).indentation
      ∧ (⟨7, "  ", "  [t]\n"⟩ : TomlBuilder).IndentSize
        = (⟨7, "  ", ""⟩ : TomlBuilder).IndentSize
      ∧ (⟨7, "  ", "  [[t]]\n"⟩ : TomlBuilder).indentation
        = (⟨7, "  ", ""⟩ : TomlBuilder).indentation
      ∧ (⟨7, "  ", "  [[t]]\n"⟩ : TomlBuilder).IndentSize
        = (⟨7, "  ", ""⟩ : TomlBuilder).IndentSize :=
  addTable_parent_frame ⟨7, "  ", ""⟩ "t" (fun x => some x.indent)
    ⟨7, "  ", "  [t]\n"⟩ ⟨7, "  ", "  [[t]]\n"⟩ (by decide) (by decide)
